import Mathlib

/-!
Verification development for the multi-agent customer-service router
(`src/router.py`).  The Python source is shallowly embedded:

* `A2ASimpleClient.create_task` becomes `create_task`, with the external
  HTTP discovery request and the SDK send pipeline abstracted as oracle
  functions (the discovery oracle is state-passing so that theorems can
  count how many network fetches were issued);
* `RouterOrchestrator.call_agent` becomes `call_agent`;
* `RouterOrchestrator.process_query` becomes `process_query`, whose
  `for i in range(max_turns)` loop is `process_query_loop`, structural on
  the remaining fuel; the Gemini model call and the A2A client call are
  state-passing oracles (`gen`, `ct`), and `json.loads` is an oracle
  `parse : String → Option Json`;
* Python runtime exceptions that the source lets escape (`KeyError`,
  `TypeError` from subscripting) are the `.error` side of an `Except`;
  exceptions caught by the source are folded into its string results.
-/

/-! ### Python string primitives (`str.replace`, `str.strip`)

`str.replace` replaces all non-overlapping occurrences left to right.
The recursion is fuelled by the length of the subject list so that it is
structural (hence computable by `rfl`/`decide`); the fuel is always
sufficient because each step consumes at least one character.
-/

def replaceCharsAux (pat rep : List Char) : Nat → List Char → List Char
  | _, [] => []
  | 0, l => l
  | fuel + 1, c :: rest =>
    if pat.isPrefixOf (c :: rest) then
      rep ++ replaceCharsAux pat rep fuel (List.drop (pat.length - 1) rest)
    else
      c :: replaceCharsAux pat rep fuel rest

/-- Python `s.replace(pat, rep)` for a non-empty `pat` (the source only
uses the patterns "```json" and "```"); with an empty pattern we return
the string unchanged. -/
def pyReplace (s pat rep : String) : String :=
  if pat.toList = [] then s
  else String.mk (replaceCharsAux pat.toList rep.toList s.toList.length s.toList)

/-- The whitespace characters stripped by Python `str.strip()`. -/
def pyIsSpace (c : Char) : Bool :=
  c = ' ' || c = '\t' || c = '\n' || c = '\r' || c = '\x0b' || c = '\x0c'

/-- Python `s.strip()`. -/
def pyStrip (s : String) : String :=
  String.mk (((s.toList.dropWhile pyIsSpace).reverse.dropWhile pyIsSpace).reverse)

/-! ### Decoded JSON values (the result of `json.loads`) -/

/-- A decoded JSON value as produced by Python `json.loads`: `null` ↦
`None`, objects ↦ `dict` (unique keys, modelled as an association list),
numbers modelled as integers (no claim depends on float contents). -/
inductive Json where
  | null
  | bool (b : Bool)
  | num (n : Int)
  | str (s : String)
  | arr (xs : List Json)
  | obj (fields : List (String × Json))

/-- First-match lookup in an association list (Python `dict` access;
`json.loads` produces unique keys, later writes shadow earlier ones). -/
def alistLookup (l : List (String × Json)) (k : String) : Option Json :=
  match l with
  | [] => none
  | (k', v) :: rest => if k' == k then some v else alistLookup rest k

/-- A Python exception that the source lets propagate out of
`process_query`: `KeyError` from a missing `dict` key, `TypeError` from
subscripting a non-`dict` decoded value with a string key. -/
inductive PyExc where
  | keyError (k : String)
  | typeError
  deriving DecidableEq

/-- Python `plan[k]` on a decoded JSON value: a `dict` yields the entry or
raises `KeyError`; strings, lists, numbers, booleans and `None` raise
`TypeError` when subscripted with a string key. -/
def getItem (j : Json) (k : String) : Except PyExc Json :=
  match j with
  | Json.obj fields =>
    match alistLookup fields k with
    | some v => Except.ok v
    | none => Except.error (PyExc.keyError k)
  | _ => Except.error PyExc.typeError

/-- Python `x == s` for a decoded JSON value `x` and a string literal `s`:
only a decoded string can compare equal; any other value is `False`. -/
def jsonEqStr (j : Json) (s : String) : Bool :=
  match j with
  | Json.str t => t == s
  | _ => false

/-! Python `str(x)`/`repr(x)` on decoded JSON values, used by the
f-string "Result from ..." applied to the agent name.  String escaping
inside `repr` is not modelled (no claim depends on it). -/

mutual

def pyRepr : Json → String
  | Json.null => "None"
  | Json.bool true => "True"
  | Json.bool false => "False"
  | Json.num n => toString n
  | Json.str s => "\x27" ++ s ++ "\x27"
  | Json.arr xs => "[" ++ pyReprList xs ++ "]"
  | Json.obj fs => "\x7b" ++ pyReprFields fs ++ "\x7d"

def pyReprList : List Json → String
  | [] => ""
  | [x] => pyRepr x
  | x :: y :: r => pyRepr x ++ ", " ++ pyReprList (y :: r)

def pyReprFields : List (String × Json) → String
  | [] => ""
  | [(k, v)] => "\x27" ++ k ++ "\x27: " ++ pyRepr v
  | (k, v) :: y :: r => "\x27" ++ k ++ "\x27: " ++ pyRepr v ++ ", " ++ pyReprFields (y :: r)

end

/-- Python `str(x)` on a decoded JSON value: a string renders as itself,
anything else as its `repr`. -/
def pyStr (j : Json) : String :=
  match j with
  | Json.str s => s
  | _ => pyRepr j

/-! ### The Gemini message history -/

/-- One entry of the `messages` list handed to the model:
`{"role": …, "parts": […]}`. -/
structure Msg where
  role : String
  parts : List String
  deriving DecidableEq

/-! ### `RouterOrchestrator.call_agent`

The A2A client call is an oracle `ct : τ → String → Json → (Except String
String) × τ` taking the world state, the resolved URL and the outbound
content (which the source passes straight through from the plan entry,
hence `Json`); a raised exception is the `.error` side, carrying
`str(e)`.  The source resolves the URL with
`url = DATA if agent_name == "customer_data" else SUPPORT` and converts
every exception from the client into the string
`f"Error calling agent: {str(e)}"`. -/
def call_agent {τ : Type}
    (ct : τ → String → Json → (Except String String) × τ)
    (DATA_AGENT_URL SUPPORT_AGENT_URL : String)
    (agent_name query : Json) (t : τ) : String × τ :=
  let url := if jsonEqStr agent_name "customer_data" then DATA_AGENT_URL else SUPPORT_AGENT_URL
  match ct t url query with
  | (Except.ok r, t') => (r, t')
  | (Except.error e, t') => ("Error calling agent: " ++ e, t')

/-! ### `RouterOrchestrator.process_query` -/

/-- The system prompt literal of `process_query` (`src/router.py`). -/
def system_prompt : String :=
  "\nYou are the Router Agent (Orchestrator) for a customer service system. \nYou have two specialized sub-agents you can call via A2A tools:\n\n1. \"customer_data\" \n   - Capabilities: Get customer details, list customers, update records, get ticket history, create tickets.\n   \n2. \"support_agent\" \n   - Capabilities: General support advice, troubleshooting, escalation decisions.\n\nYour Goal: Answer the user\x27s request by coordinating these agents.\n\nCRITICAL INSTRUCTION FOR LISTS: \n- If the user asks for a list of customers with specific conditions (e.g., \"active customers with open tickets\"), do NOT check them one by one. \n- **BATCH YOUR REQUESTS:**\n  1. Call customer_data to list active customers.\n  2. Send a **SINGLE** message to customer_data requesting ticket history for **ALL** the retrieved customer IDs at once (e.g. \"Get history for customer IDs 4, 5, 8, 10...\"). \n  3. Filter the results yourself based on the returned data.\n\nRESPONSE FORMAT:\nYou must strictly return a JSON object in this format (no markdown formatting):\n\x7b\n    \"thought\": \"Explanation of your reasoning\",\n    \"action\": \"call_agent\" OR \"final_answer\",\n    \"agent_name\": \"customer_data\" OR \"support_agent\" (only if action is call_agent),\n    \"content\": \"The specific query string to send to that agent\" OR \"The final text response to the user\"\n\x7d\n"

/-- `max_turns = 15`. -/
def max_turns : Nat := 15

/-- The JSON clean-up applied to the model output:
`response_text.replace("```json", "").replace("```", "").strip()`. -/
def clean_text (response_text : String) : String :=
  pyStrip (pyReplace (pyReplace response_text "```json" "") "```" "")

/-- The corrective turn appended on a JSON parse failure. -/
def invalidJsonMsg : Msg :=
  { role := "user", parts := ["Invalid JSON. Please return ONLY valid JSON."] }

/-- The `for i in range(max_turns)` loop of `process_query`, structural on
the remaining fuel.  `gen` is the model oracle
(`generate_content_async` + `.text`, state-passing over `σ`; a raised
exception is `.error` and is caught by the source, which returns
`"System Error"`).  `parse` is `json.loads` (`none` = `JSONDecodeError`).
The result is the value `process_query` returns (`.ok`, a `Json` because
the plan content need not be a string) or the Python exception the
source lets escape (`.error`), together with the final oracle states. -/
def process_query_loop {σ τ : Type}
    (gen : σ → List Msg → (Except String String) × σ)
    (parse : String → Option Json)
    (ct : τ → String → Json → (Except String String) × τ)
    (DATA_AGENT_URL SUPPORT_AGENT_URL : String) :
    Nat → List Msg → σ → τ → (Except PyExc Json) × σ × τ
  | 0, _, s, t =>
    (Except.ok (Json.str "Error: Maximum turns reached without final answer."), s, t)
  | n + 1, messages, s, t =>
    match gen s messages with
    | (Except.error _, s') => (Except.ok (Json.str "System Error"), s', t)
    | (Except.ok response_text, s') =>
      let cleaned := clean_text response_text
      match parse cleaned with
      | none =>
        process_query_loop gen parse ct DATA_AGENT_URL SUPPORT_AGENT_URL n
          (messages ++ [invalidJsonMsg]) s' t
      | some plan =>
        match getItem plan "thought" with
        | Except.error e => (Except.error e, s', t)
        | Except.ok _ =>
          match getItem plan "action" with
          | Except.error e => (Except.error e, s', t)
          | Except.ok action =>
            if jsonEqStr action "final_answer" then
              match getItem plan "content" with
              | Except.error e => (Except.error e, s', t)
              | Except.ok c => (Except.ok c, s', t)
            else if jsonEqStr action "call_agent" then
              match getItem plan "agent_name" with
              | Except.error e => (Except.error e, s', t)
              | Except.ok agent_name =>
                match getItem plan "content" with
                | Except.error e => (Except.error e, s', t)
                | Except.ok content =>
                  match call_agent ct DATA_AGENT_URL SUPPORT_AGENT_URL agent_name content t with
                  | (agent_response, t') =>
                    process_query_loop gen parse ct DATA_AGENT_URL SUPPORT_AGENT_URL n
                      (messages ++
                        [{ role := "model", parts := [cleaned] },
                         { role := "user",
                           parts := ["Result from " ++ pyStr agent_name ++ ": " ++ agent_response] }])
                      s' t'
            else
              process_query_loop gen parse ct DATA_AGENT_URL SUPPORT_AGENT_URL n messages s' t

/-- `RouterOrchestrator.process_query`: seeds the history with the system
prompt concatenated with the user query and runs the loop for
`max_turns` turns. -/
def process_query {σ τ : Type}
    (gen : σ → List Msg → (Except String String) × σ)
    (parse : String → Option Json)
    (ct : τ → String → Json → (Except String String) × τ)
    (DATA_AGENT_URL SUPPORT_AGENT_URL : String)
    (user_query : String) (s : σ) (t : τ) : (Except PyExc Json) × σ × τ :=
  process_query_loop gen parse ct DATA_AGENT_URL SUPPORT_AGENT_URL max_turns
    [{ role := "user", parts := [system_prompt ++ "\n\nUser Query: " ++ user_query] }] s t

example : clean_text "not json" = "not json" := rfl

example : clean_text "```json \x7b\"a\": 1\x7d ```" = "\x7b\"a\": 1\x7d" := rfl

/-! ### `A2ASimpleClient.create_task`

The SDK objects reached by the result extraction
`task.artifacts[0].parts[0].root.text`: `Task.artifacts` is optional in
the SDK (`None` when the response carries no artifacts), an artifact
holds a list of parts, and the root of a part either is a text part
(carrying `.text`) or is a file/data part with no `.text` attribute.
`reprStr` stands for the Python `str(task)` rendering. -/

inductive PartRoot where
  | textPart (text : String)
  | otherPart
  deriving DecidableEq

structure Artifact where
  parts : List PartRoot
  deriving DecidableEq

structure A2ATask where
  artifacts : Option (List Artifact)
  reprStr : String
  deriving DecidableEq

/-- One element of the `responses` list collected from
`client.send_message`: the SDK yields tuples whose first element is a
`Task`; the source checks `isinstance(responses[0], tuple)` and
`len(responses[0]) > 0`, so we model a tuple of tasks and a non-tuple
alternative. -/
inductive Response where
  | tup (elems : List A2ATask)
  | nonTuple

/-- `return task.artifacts[0].parts[0].root.text` guarded by
`except (AttributeError, IndexError): return str(task)`.
`task.artifacts` equal to `None` raises `TypeError` (`None[0]` is not
`AttributeError`/`IndexError`), which the source does not catch: that is
the `.error` side.  An empty artifact list or part list raises a caught
`IndexError`; a non-text part root raises a caught `AttributeError`;
both fall back to `str(task)`. -/
def extract_text (task : A2ATask) : Except String String :=
  match task.artifacts with
  | none => Except.error "TypeError"
  | some [] => Except.ok task.reprStr
  | some (a :: _) =>
    match a.parts with
    | [] => Except.ok task.reprStr
    | PartRoot.textPart t :: _ => Except.ok t
    | PartRoot.otherPart :: _ => Except.ok task.reprStr

/-- The tail of `create_task` after the agent card is available:
`AgentCard(**data)`, client construction and `send_message` are the
oracle `send` (its `.error` side is any exception raised there, which
`create_task` lets propagate); then the response-shape check and the
text extraction. -/
def handleSend
    (send : Json → String → Except String (List Response))
    (agent_card_data : Json) (message : String) : Except String String :=
  match send agent_card_data message with
  | Except.error e => Except.error e
  | Except.ok responses =>
    match responses with
    | Response.tup (task :: _) :: _ => extract_text task
    | _ => Except.ok "No response received"

/-- `A2ASimpleClient.create_task`.  The agent-card cache
`self._agent_info_cache` is the association list `cache` (insertion is a
shadowing cons, Python `dict` assignment); a cached `Json.null` models a
stored Python `None`, which the guard `… is not None` treats as absent.
`fetch` is the discovery request `httpx_client.get(url + well_known_path)`
followed by `.json()`, state-passing over `σ` so that fetches can be
counted; its `.error` side (network error or unparsable body) propagates
and leaves the cache unchanged.  On a successful fetch the body is cached
before the send pipeline runs. -/
def create_task {σ : Type}
    (fetch : σ → String → (Except String Json) × σ)
    (send : Json → String → Except String (List Response))
    (cache : List (String × Json)) (s : σ) (agent_url message : String) :
    (Except String String) × List (String × Json) × σ :=
  match alistLookup cache agent_url with
  | some Json.null =>
    match fetch s agent_url with
    | (Except.error e, s') => (Except.error e, cache, s')
    | (Except.ok d, s') => (handleSend send d message, (agent_url, d) :: cache, s')
  | some v => (handleSend send v message, cache, s)
  | none =>
    match fetch s agent_url with
    | (Except.error e, s') => (Except.error e, cache, s')
    | (Except.ok d, s') => (handleSend send d message, (agent_url, d) :: cache, s')

/-! ### Step lemmas for one turn of the `process_query` loop -/

/-- One turn on which the model call raises: the source catches the
exception and returns `"System Error"` at once. -/
theorem loop_gen_error_step {σ τ : Type}
    (gen : σ → List Msg → (Except String String) × σ)
    (parse : String → Option Json)
    (ct : τ → String → Json → (Except String String) × τ)
    (D S : String) (n : Nat) (messages : List Msg) (e : String) (s s' : σ) (t : τ)
    (hg : gen s messages = (Except.error e, s')) :
    process_query_loop gen parse ct D S (n + 1) messages s t =
      (Except.ok (Json.str "System Error"), s', t) := by
  simp only [process_query_loop, hg]

/-- One turn on which the cleaned model output fails JSON parsing: the
corrective turn is appended and the loop re-enters with one unit of the
budget consumed. -/
theorem loop_parse_fail_step {σ τ : Type}
    (gen : σ → List Msg → (Except String String) × σ)
    (parse : String → Option Json)
    (ct : τ → String → Json → (Except String String) × τ)
    (D S : String) (n : Nat) (messages : List Msg) (r : String) (s s' : σ) (t : τ)
    (hg : gen s messages = (Except.ok r, s'))
    (hp : parse (clean_text r) = none) :
    process_query_loop gen parse ct D S (n + 1) messages s t =
      process_query_loop gen parse ct D S n (messages ++ [invalidJsonMsg]) s' t := by
  simp only [process_query_loop, hg, hp]

/-- One turn on which the parsed plan is a `final_answer`: the content
of the plan is returned at once, with the agent-call oracle state untouched. -/
theorem loop_final_answer_step {σ τ : Type}
    (gen : σ → List Msg → (Except String String) × σ)
    (parse : String → Option Json)
    (ct : τ → String → Json → (Except String String) × τ)
    (D S : String) (n : Nat) (messages : List Msg) (r : String) (s s' : σ) (t : τ)
    (plan th a c : Json)
    (hg : gen s messages = (Except.ok r, s'))
    (hp : parse (clean_text r) = some plan)
    (hth : getItem plan "thought" = Except.ok th)
    (hac : getItem plan "action" = Except.ok a)
    (hfa : jsonEqStr a "final_answer" = true)
    (hc : getItem plan "content" = Except.ok c) :
    process_query_loop gen parse ct D S (n + 1) messages s t = (Except.ok c, s', t) := by
  simp only [process_query_loop, hg, hp, hth, hac, hfa, hc, if_true]

/-- One turn on which the parsed plan is a `call_agent` delegation: the
agent is called and exactly two history entries are appended — the
cleaned plan text as a `model` turn and the result turn
`"Result from <agent>: <result>"` as a `user` turn. -/
theorem loop_call_agent_step {σ τ : Type}
    (gen : σ → List Msg → (Except String String) × σ)
    (parse : String → Option Json)
    (ct : τ → String → Json → (Except String String) × τ)
    (D S : String) (n : Nat) (messages : List Msg) (r : String) (s s' : σ) (t : τ)
    (plan th a an c : Json)
    (hg : gen s messages = (Except.ok r, s'))
    (hp : parse (clean_text r) = some plan)
    (hth : getItem plan "thought" = Except.ok th)
    (hac : getItem plan "action" = Except.ok a)
    (hfa : jsonEqStr a "final_answer" = false)
    (hca : jsonEqStr a "call_agent" = true)
    (han : getItem plan "agent_name" = Except.ok an)
    (hc : getItem plan "content" = Except.ok c) :
    process_query_loop gen parse ct D S (n + 1) messages s t =
      process_query_loop gen parse ct D S n
        (messages ++
          [{ role := "model", parts := [clean_text r] },
           { role := "user",
             parts := ["Result from " ++ pyStr an ++ ": " ++
               (call_agent ct D S an c t).1] }])
        s' (call_agent ct D S an c t).2 := by
  simp only [process_query_loop, hg, hp, hth, hac, hfa, hca, han, hc, if_false,
    Bool.false_eq_true, if_true]

/-- One turn on which the parsed plan carries a `thought` field and an
unrecognized action: no branch fires, the history and the agent-call
oracle state are left unchanged, and one unit of the budget is consumed. -/
theorem loop_other_action_step {σ τ : Type}
    (gen : σ → List Msg → (Except String String) × σ)
    (parse : String → Option Json)
    (ct : τ → String → Json → (Except String String) × τ)
    (D S : String) (n : Nat) (messages : List Msg) (r : String) (s s' : σ) (t : τ)
    (plan th a : Json)
    (hg : gen s messages = (Except.ok r, s'))
    (hp : parse (clean_text r) = some plan)
    (hth : getItem plan "thought" = Except.ok th)
    (hac : getItem plan "action" = Except.ok a)
    (hfa : jsonEqStr a "final_answer" = false)
    (hca : jsonEqStr a "call_agent" = false) :
    process_query_loop gen parse ct D S (n + 1) messages s t =
      process_query_loop gen parse ct D S n messages s' t := by
  simp only [process_query_loop, hg, hp, hth, hac, hfa, hca, if_false, Bool.false_eq_true]

/-! ### Well-formed plans and totality of the loop -/

def exceptIsOk (e : Except PyExc Json) : Bool :=
  match e with
  | Except.ok _ => true
  | Except.error _ => false

/-- A parsed plan on which every subscript access performed by the loop
body succeeds: the `thought` and `action` keys are present, a
`final_answer` plan carries a string `content`, and a `call_agent` plan
carries `agent_name` and `content`. -/
def goodPlan (j : Json) : Bool :=
  match getItem j "thought", getItem j "action" with
  | Except.ok _, Except.ok a =>
    if jsonEqStr a "final_answer" then
      match getItem j "content" with
      | Except.ok (Json.str _) => true
      | _ => false
    else if jsonEqStr a "call_agent" then
      exceptIsOk (getItem j "agent_name") && exceptIsOk (getItem j "content")
    else true
  | _, _ => false

/-- If every value the parser can produce is a well-formed plan, the loop
never lets a Python exception escape and always returns a string. -/
theorem loop_good_total {σ τ : Type}
    (gen : σ → List Msg → (Except String String) × σ)
    (parse : String → Option Json)
    (ct : τ → String → Json → (Except String String) × τ)
    (D S : String)
    (hp : ∀ str j, parse str = some j → goodPlan j = true) :
    ∀ (n : Nat) (messages : List Msg) (s : σ) (t : τ),
      ∃ out, (process_query_loop gen parse ct D S n messages s t).1 =
        Except.ok (Json.str out) := by
  intro n
  induction n with
  | zero =>
    intro messages s t
    exact ⟨"Error: Maximum turns reached without final answer.", rfl⟩
  | succ n ih =>
    intro messages s t
    rcases hg : gen s messages with ⟨res, s'⟩
    rcases res with r | r
    · rw [loop_gen_error_step gen parse ct D S n messages r s s' t hg]
      exact ⟨"System Error", rfl⟩
    · rcases hpp : parse (clean_text r) with _ | plan
      · rw [loop_parse_fail_step gen parse ct D S n messages r s s' t hg hpp]
        exact ih _ s' t
      · have hgood := hp _ _ hpp
        rcases hth : getItem plan "thought" with eth | th
        · simp only [goodPlan, hth] at hgood
          exact Bool.noConfusion hgood
        · rcases hac : getItem plan "action" with eac | a
          · simp only [goodPlan, hth, hac] at hgood
            exact Bool.noConfusion hgood
          · rcases hfa : jsonEqStr a "final_answer" with _ | _
            · rcases hca : jsonEqStr a "call_agent" with _ | _
              · rw [loop_other_action_step gen parse ct D S n messages r s s' t plan th a
                  hg hpp hth hac hfa hca]
                exact ih _ s' t
              · simp only [goodPlan, hth, hac, hfa, hca, Bool.false_eq_true, if_false,
                  if_true, Bool.and_eq_true] at hgood
                rcases han : getItem plan "agent_name" with ean | an
                · rw [han] at hgood
                  simp [exceptIsOk] at hgood
                · rcases hc : getItem plan "content" with ec | c
                  · rw [hc] at hgood
                    simp [exceptIsOk] at hgood
                  · rw [loop_call_agent_step gen parse ct D S n messages r s s' t plan th a an c
                      hg hpp hth hac hfa hca han hc]
                    exact ih _ s' _
            · simp only [goodPlan, hth, hac, hfa, if_true] at hgood
              rcases hc : getItem plan "content" with ec | c
              · rw [hc] at hgood
                simp at hgood
              · rw [loop_final_answer_step gen parse ct D S n messages r s s' t plan th a c
                  hg hpp hth hac hfa hc]
                rw [hc] at hgood
                rcases c with _ | b | nn | cs | xs | fs <;> simp at hgood
                exact ⟨cs, rfl⟩

/-! ### Counting model calls

`countGen f` is a model oracle whose state is the number of model calls
issued so far (one `Planning` entry per call). -/

def countGen (f : Nat → List Msg → Except String String) :
    Nat → List Msg → (Except String String) × Nat :=
  fun k messages => (f k messages, k + 1)

/-- Any model oracle that increments its counter once per call yields at
most `n` further calls from a loop with fuel `n`. -/
theorem loop_count_le {τ : Type}
    (gen : Nat → List Msg → (Except String String) × Nat)
    (hgen : ∀ k m, (gen k m).2 = k + 1)
    (parse : String → Option Json)
    (ct : τ → String → Json → (Except String String) × τ)
    (D S : String) :
    ∀ (n : Nat) (messages : List Msg) (k : Nat) (t : τ),
      (process_query_loop gen parse ct D S n messages k t).2.1 ≤ k + n := by
  intro n
  induction n with
  | zero =>
    intro messages k t
    simp [process_query_loop]
  | succ n ih =>
    intro messages k t
    rcases hg : gen k messages with ⟨res, s'⟩
    have hs' : s' = k + 1 := by
      have := hgen k messages
      rw [hg] at this
      exact this
    subst hs'
    rcases res with e | r
    · rw [loop_gen_error_step gen parse ct D S n messages e k (k + 1) t hg]
      show k + 1 ≤ k + (n + 1)
      omega
    · rcases hpp : parse (clean_text r) with _ | plan
      · rw [loop_parse_fail_step gen parse ct D S n messages r k (k + 1) t hg hpp]
        have := ih (messages ++ [invalidJsonMsg]) (k + 1) t
        omega
      · simp only [process_query_loop, hg, hpp]
        rcases hth : getItem plan "thought" with eth | th
        · simp only [hth]
          show k + 1 ≤ k + (n + 1)
          omega
        · simp only [hth]
          rcases hac : getItem plan "action" with eac | a
          · simp only [hac]
            show k + 1 ≤ k + (n + 1)
            omega
          · simp only [hac]
            rcases hfa : jsonEqStr a "final_answer" with _ | _
            · simp only [hfa, Bool.false_eq_true, if_false]
              rcases hca : jsonEqStr a "call_agent" with _ | _
              · simp only [hca, Bool.false_eq_true, if_false]
                have := ih messages (k + 1) t
                omega
              · simp only [hca, if_true]
                rcases han : getItem plan "agent_name" with ean | an
                · simp only [han]
                  show k + 1 ≤ k + (n + 1)
                  omega
                · simp only [han]
                  rcases hc : getItem plan "content" with ec | c
                  · simp only [hc]
                    show k + 1 ≤ k + (n + 1)
                    omega
                  · simp only [hc]
                    rcases hcall : call_agent ct D S an c t with ⟨resp, t'⟩
                    simp only [hcall]
                    have := ih (messages ++
                      [{ role := "model", parts := [clean_text r] },
                       { role := "user",
                         parts := ["Result from " ++ pyStr an ++ ": " ++ resp] }]) (k + 1) t'
                    omega
            · simp only [hfa, if_true]
              rcases hc : getItem plan "content" with ec | c
              · simp only [hc]
                show k + 1 ≤ k + (n + 1)
                omega
              · simp only [hc]
                show k + 1 ≤ k + (n + 1)
                omega

/-- A model that always answers the fixed text `r0`, which parses to
nothing (parse failure), drives the loop through all its fuel: each turn
consumes one unit, appends the corrective turn, and the loop ends with
the exhaustion sentinel; the agent-call oracle is never consulted. -/
theorem loop_all_parse_fail {τ : Type}
    (parse : String → Option Json)
    (ct : τ → String → Json → (Except String String) × τ)
    (D S : String) (r0 : String)
    (hp : parse (clean_text r0) = none) :
    ∀ (n : Nat) (messages : List Msg) (k : Nat) (t : τ),
      process_query_loop (countGen (fun _ _ => Except.ok r0)) parse ct D S n messages k t =
        (Except.ok (Json.str "Error: Maximum turns reached without final answer."), k + n, t) := by
  intro n
  induction n with
  | zero =>
    intro messages k t
    rfl
  | succ n ih =>
    intro messages k t
    rw [loop_parse_fail_step (countGen (fun _ _ => Except.ok r0)) parse ct D S n messages r0
      k (k + 1) t rfl hp]
    rw [ih (messages ++ [invalidJsonMsg]) (k + 1) t]
    have h : k + 1 + n = k + (n + 1) := by omega
    rw [h]

/-- A model that always answers the fixed text `r0`, which parses to a
plan with a `thought` field and an action that is neither
`final_answer` nor `call_agent`, also drives the loop through all its
fuel, leaving the history untouched on every turn. -/
theorem loop_all_other_action {τ : Type}
    (parse : String → Option Json)
    (ct : τ → String → Json → (Except String String) × τ)
    (D S : String) (r0 : String) (plan th a : Json)
    (hp : parse (clean_text r0) = some plan)
    (hth : getItem plan "thought" = Except.ok th)
    (hac : getItem plan "action" = Except.ok a)
    (hfa : jsonEqStr a "final_answer" = false)
    (hca : jsonEqStr a "call_agent" = false) :
    ∀ (n : Nat) (messages : List Msg) (k : Nat) (t : τ),
      process_query_loop (countGen (fun _ _ => Except.ok r0)) parse ct D S n messages k t =
        (Except.ok (Json.str "Error: Maximum turns reached without final answer."), k + n, t) := by
  intro n
  induction n with
  | zero =>
    intro messages k t
    rfl
  | succ n ih =>
    intro messages k t
    rw [loop_other_action_step (countGen (fun _ _ => Except.ok r0)) parse ct D S n messages r0
      k (k + 1) t plan th a rfl hp hth hac hfa hca]
    rw [ih messages (k + 1) t]
    have h : k + 1 + n = k + (n + 1) := by omega
    rw [h]

/-- Exceptions raised by the A2A client are converted by `call_agent`
into the string `"Error calling agent: " ++ str(e)`; the URL consulted is
the one resolved from the agent name. -/
theorem call_agent_error_string {τ : Type}
    (ct : τ → String → Json → (Except String String) × τ)
    (D S : String) (agent_name query : Json) (t t' : τ) (e : String)
    (hct : ct t (if jsonEqStr agent_name "customer_data" then D else S) query =
      (Except.error e, t')) :
    call_agent ct D S agent_name query t = ("Error calling agent: " ++ e, t') := by
  simp only [call_agent, hct]

/-! ### Claim C1 -/

/-- C1 (counterexample): the claim that `process_query` never lets an
exception propagate "even when the model output parses as JSON but lacks
expected fields" is false on the code: a model output parsing to the
object `\x7b"thought": "t", "action": "final_answer"\x7d` (no `content`
key) makes the return of the content entry raise a `KeyError` for the
key "content", which escapes `process_query`. -/
theorem c1_keyerror_escapes_process_query :
    (process_query
      (fun (_ : Unit) (_ : List Msg) => ((Except.ok "P" : Except String String), ()))
      (fun str => if str == "P" then
          some (Json.obj [("thought", Json.str "t"), ("action", Json.str "final_answer")])
        else none)
      (fun (_ : Unit) (_ : String) (_ : Json) => ((Except.ok "" : Except String String), ()))
      "D" "S" "q" () ()).1 = Except.error (PyExc.keyError "content") := rfl

/-- C1 (amended): `process_query` never lets an exception escape and
always returns a string provided every plan the parser can produce is
well-formed (`goodPlan`: `thought` and `action` present, a
`final_answer` plan carrying a string `content`, a `call_agent` plan
carrying `agent_name` and `content`); and a communication failure raised
inside the Protocol Client is converted by `call_agent` into the error
string `"Error calling agent: …"` rather than propagating.  A parsed
plan missing an accessed field, by contrast, raises `KeyError` past
`process_query` (see the counterexample). -/
theorem c1_no_exception_for_wellformed_plans :
    (∀ (σ τ : Type)
       (gen : σ → List Msg → (Except String String) × σ)
       (parse : String → Option Json)
       (ct : τ → String → Json → (Except String String) × τ)
       (D S q : String) (s : σ) (t : τ),
       (∀ str j, parse str = some j → goodPlan j = true) →
       ∃ out, (process_query gen parse ct D S q s t).1 = Except.ok (Json.str out))
  ∧ (∀ (τ : Type) (ct : τ → String → Json → (Except String String) × τ)
       (D S : String) (an q : Json) (t t' : τ) (e : String),
       ct t (if jsonEqStr an "customer_data" then D else S) q = (Except.error e, t') →
       call_agent ct D S an q t = ("Error calling agent: " ++ e, t')) := by
  constructor
  · intro σ τ gen parse ct D S q s t hp
    exact loop_good_total gen parse ct D S hp max_turns _ s t
  · intro τ ct D S an q t t' e hct
    exact call_agent_error_string ct D S an q t t' e hct

/-- C1 witness: a concrete run whose single plan is well-formed returns a
string. -/
theorem c1_no_exception_for_wellformed_plans_witness :
    ∃ out, (process_query
      (fun (_ : Unit) (_ : List Msg) => ((Except.ok "P" : Except String String), ()))
      (fun _ => some (Json.obj
        [("thought", Json.str "t"), ("action", Json.str "final_answer"),
         ("content", Json.str "done")]))
      (fun (_ : Unit) (_ : String) (_ : Json) => ((Except.ok "" : Except String String), ()))
      "D" "S" "q" () ()).1 = Except.ok (Json.str out) :=
  c1_no_exception_for_wellformed_plans.1 Unit Unit _ _ _ "D" "S" "q" () ()
    (fun _ j h => by injection h with h; rw [← h]; decide)

/-! ### Claim C2 -/

/-- C2 (counterexample): the claim that a `call_agent` plan naming an
unknown agent is surfaced as an error-bearing result "rather than
dispatching the message to some configured endpoint" is false on the
code: `url = DATA if agent_name == "customer_data" else SUPPORT` routes
the unknown name `"billing_agent"` to the configured support endpoint
and dispatches the message there. -/
theorem c2_unknown_agent_dispatched_to_support :
    call_agent (fun (_ : Unit) (url : String) (_ : Json) =>
        ((Except.ok ("endpoint=" ++ url) : Except String String), ()))
      "DATA_URL" "SUPPORT_URL" (Json.str "billing_agent") (Json.str "hi") () =
      ("endpoint=SUPPORT_URL", ()) := rfl

/-- C2 (amended): an `agent_name` that is not the string
`"customer_data"` — unknown names included — is dispatched to the
support endpoint, behaving exactly as if the name were
`"support_agent"`; no `UnknownAgent` error exists.  The call still never
crashes: an exception from the client becomes an error string. -/
theorem c2_unknown_agent_behaves_as_support_agent :
    (∀ (τ : Type) (ct : τ → String → Json → (Except String String) × τ)
       (D S : String) (an q : Json) (t : τ),
       jsonEqStr an "customer_data" = false →
       call_agent ct D S an q t = call_agent ct D S (Json.str "support_agent") q t)
  ∧ (∀ (τ : Type) (ct : τ → String → Json → (Except String String) × τ)
       (D S : String) (an q : Json) (t t' : τ) (e : String),
       ct t (if jsonEqStr an "customer_data" then D else S) q = (Except.error e, t') →
       call_agent ct D S an q t = ("Error calling agent: " ++ e, t')) := by
  constructor
  · intro τ ct D S an q t h
    simp only [call_agent, h]
    rfl
  · intro τ ct D S an q t t' e hct
    exact call_agent_error_string ct D S an q t t' e hct

/-- C2 witness: a concrete unknown name behaves as `"support_agent"`. -/
theorem c2_unknown_agent_behaves_as_support_agent_witness :
    call_agent (fun (_ : Unit) (url : String) (_ : Json) =>
        ((Except.ok url : Except String String), ()))
      "D" "S" (Json.str "ops_agent") (Json.str "x") () =
    call_agent (fun (_ : Unit) (url : String) (_ : Json) =>
        ((Except.ok url : Except String String), ()))
      "D" "S" (Json.str "support_agent") (Json.str "x") () :=
  c2_unknown_agent_behaves_as_support_agent.1 Unit _ "D" "S"
    (Json.str "ops_agent") (Json.str "x") () rfl

/-! ### Claim C3 -/

/-- C3: at most 15 planning turns are executed per invocation (the model
oracle counting its calls never exceeds 15), and a model returning the
unparsable text `"not json"` on every turn yields the fixed exhaustion
sentinel after exactly 15 planning entries with the agent-call oracle
never consulted (its state is returned unchanged for every oracle). -/
theorem c3_turn_budget_and_exhaustion :
    (∀ (τ : Type) (f : Nat → List Msg → Except String String)
       (parse : String → Option Json)
       (ct : τ → String → Json → (Except String String) × τ)
       (D S q : String) (t : τ),
       (process_query (countGen f) parse ct D S q 0 t).2.1 ≤ 15)
  ∧ (∀ (τ : Type) (parse : String → Option Json)
       (ct : τ → String → Json → (Except String String) × τ)
       (D S q : String) (t : τ),
       parse "not json" = none →
       process_query (countGen fun _ _ => Except.ok "not json") parse ct D S q 0 t =
         (Except.ok (Json.str "Error: Maximum turns reached without final answer."), 15, t)) := by
  constructor
  · intro τ f parse ct D S q t
    exact loop_count_le (countGen f) (fun _ _ => rfl) parse ct D S 15 _ 0 t
  · intro τ parse ct D S q t hp
    exact loop_all_parse_fail parse ct D S "not json"
      (show parse (clean_text "not json") = none from hp) 15 _ 0 t

/-- C3 witness: a concrete 15-turn exhaustion run. -/
theorem c3_turn_budget_and_exhaustion_witness :
    process_query (countGen fun _ _ => Except.ok "not json") (fun _ => none)
      (fun (_ : Unit) (_ : String) (_ : Json) => ((Except.ok "" : Except String String), ()))
      "D" "S" "hello" 0 () =
      (Except.ok (Json.str "Error: Maximum turns reached without final answer."), 15, ()) :=
  c3_turn_budget_and_exhaustion.2 Unit (fun _ => none) _ "D" "S" "hello" () rfl

/-! ### Claim C4 -/

/-- C4: a turn whose cleaned model output fails JSON parsing appends
exactly one corrective `user` turn (never two), does not terminate the
invocation, and consumes exactly one unit of the turn budget
(`n + 1 ↦ n`). -/
theorem c4_parse_failure_single_corrective_turn :
    ∀ (σ τ : Type)
      (gen : σ → List Msg → (Except String String) × σ)
      (parse : String → Option Json)
      (ct : τ → String → Json → (Except String String) × τ)
      (D S : String) (n : Nat) (messages : List Msg) (r : String) (s s' : σ) (t : τ),
      gen s messages = (Except.ok r, s') →
      parse (clean_text r) = none →
      process_query_loop gen parse ct D S (n + 1) messages s t =
        process_query_loop gen parse ct D S n (messages ++ [invalidJsonMsg]) s' t :=
  fun _ _ gen parse ct D S n messages r s s' t hg hp =>
    loop_parse_fail_step gen parse ct D S n messages r s s' t hg hp

/-- C4 witness: one concrete parse-failure turn. -/
theorem c4_parse_failure_single_corrective_turn_witness :
    process_query_loop
      (fun (_ : Unit) (_ : List Msg) => ((Except.ok "not json" : Except String String), ()))
      (fun _ => none)
      (fun (_ : Unit) (_ : String) (_ : Json) => ((Except.ok "" : Except String String), ()))
      "D" "S" 3 [] () () =
    process_query_loop
      (fun (_ : Unit) (_ : List Msg) => ((Except.ok "not json" : Except String String), ()))
      (fun _ => none)
      (fun (_ : Unit) (_ : String) (_ : Json) => ((Except.ok "" : Except String String), ()))
      "D" "S" 2 ([] ++ [invalidJsonMsg]) () () :=
  c4_parse_failure_single_corrective_turn Unit Unit _ _ _ "D" "S" 2 [] "not json" () () ()
    rfl rfl

/-! ### Claim C5 -/

/-- C5 (counterexample): the claim that every turn whose parsed plan has
`action = final_answer` immediately returns the plan content is false
on the code: the plan `\x7b"action": "final_answer", "content": "hi"\x7d`
(no `thought` key) makes the print of the thought entry raise a
`KeyError` for the key "thought" before the action is even inspected, so
`process_query` raises instead of returning `"hi"`. -/
theorem c5_final_answer_missing_thought_raises :
    (process_query
      (fun (_ : Unit) (_ : List Msg) => ((Except.ok "P5" : Except String String), ()))
      (fun str => if str == "P5" then
          some (Json.obj [("action", Json.str "final_answer"), ("content", Json.str "hi")])
        else none)
      (fun (_ : Unit) (_ : String) (_ : Json) => ((Except.ok "" : Except String String), ()))
      "D" "S" "q" () ()).1 = Except.error (PyExc.keyError "thought") := rfl

/-- C5 (amended): on every turn whose parsed plan carries a `thought`
field and whose `action` equals `"final_answer"` with a `content` field
present, the loop immediately returns that content, and no delegation
call is made on that turn or any later one (the agent-call oracle state
is returned untouched, for every oracle). -/
theorem c5_final_answer_short_circuit :
    ∀ (σ τ : Type)
      (gen : σ → List Msg → (Except String String) × σ)
      (parse : String → Option Json)
      (ct : τ → String → Json → (Except String String) × τ)
      (D S : String) (n : Nat) (messages : List Msg) (r : String) (s s' : σ) (t : τ)
      (plan th a c : Json),
      gen s messages = (Except.ok r, s') →
      parse (clean_text r) = some plan →
      getItem plan "thought" = Except.ok th →
      getItem plan "action" = Except.ok a →
      jsonEqStr a "final_answer" = true →
      getItem plan "content" = Except.ok c →
      process_query_loop gen parse ct D S (n + 1) messages s t = (Except.ok c, s', t) :=
  fun _ _ gen parse ct D S n messages r s s' t plan th a c hg hp hth hac hfa hc =>
    loop_final_answer_step gen parse ct D S n messages r s s' t plan th a c
      hg hp hth hac hfa hc

/-- C5 witness: a concrete well-formed `final_answer` turn returns its
content at once. -/
theorem c5_final_answer_short_circuit_witness :
    process_query_loop
      (fun (_ : Unit) (_ : List Msg) => ((Except.ok "F" : Except String String), ()))
      (fun _ => some (Json.obj
        [("thought", Json.str "t"), ("action", Json.str "final_answer"),
         ("content", Json.str "done")]))
      (fun (_ : Unit) (_ : String) (_ : Json) => ((Except.ok "" : Except String String), ()))
      "D" "S" 5 [] () () = (Except.ok (Json.str "done"), (), ()) :=
  c5_final_answer_short_circuit Unit Unit _ _ _ "D" "S" 4 [] "F" () () ()
    (Json.obj [("thought", Json.str "t"), ("action", Json.str "final_answer"),
      ("content", Json.str "done")])
    (Json.str "t") (Json.str "final_answer") (Json.str "done")
    rfl rfl rfl rfl rfl rfl

/-! ### Claim C6 -/

/-- C6: within one invocation the history is only ever extended — a
successful delegation turn appends exactly two entries, a `model` turn
holding the (cleaned) plan text and a `user` turn whose content is
`"Result from <agent>: "` followed verbatim by the call result
(error strings included, since `call_agent` folds client failures into
its string result); a corrective reprompt appends exactly one entry. -/
theorem c6_history_append_per_turn :
    (∀ (σ τ : Type)
       (gen : σ → List Msg → (Except String String) × σ)
       (parse : String → Option Json)
       (ct : τ → String → Json → (Except String String) × τ)
       (D S : String) (n : Nat) (messages : List Msg) (r : String) (s s' : σ) (t : τ)
       (plan th a an c : Json),
       gen s messages = (Except.ok r, s') →
       parse (clean_text r) = some plan →
       getItem plan "thought" = Except.ok th →
       getItem plan "action" = Except.ok a →
       jsonEqStr a "final_answer" = false →
       jsonEqStr a "call_agent" = true →
       getItem plan "agent_name" = Except.ok an →
       getItem plan "content" = Except.ok c →
       process_query_loop gen parse ct D S (n + 1) messages s t =
         process_query_loop gen parse ct D S n
           (messages ++
             [{ role := "model", parts := [clean_text r] },
              { role := "user",
                parts := ["Result from " ++ pyStr an ++ ": " ++
                  (call_agent ct D S an c t).1] }])
           s' (call_agent ct D S an c t).2)
  ∧ (∀ (σ τ : Type)
       (gen : σ → List Msg → (Except String String) × σ)
       (parse : String → Option Json)
       (ct : τ → String → Json → (Except String String) × τ)
       (D S : String) (n : Nat) (messages : List Msg) (r : String) (s s' : σ) (t : τ),
       gen s messages = (Except.ok r, s') →
       parse (clean_text r) = none →
       process_query_loop gen parse ct D S (n + 1) messages s t =
         process_query_loop gen parse ct D S n (messages ++ [invalidJsonMsg]) s' t) := by
  constructor
  · intro σ τ gen parse ct D S n messages r s s' t plan th a an c hg hp hth hac hfa hca han hc
    exact loop_call_agent_step gen parse ct D S n messages r s s' t plan th a an c
      hg hp hth hac hfa hca han hc
  · intro σ τ gen parse ct D S n messages r s s' t hg hp
    exact loop_parse_fail_step gen parse ct D S n messages r s s' t hg hp

/-- C6 witness: one concrete delegation turn, whose client call fails, so
the appended result turn holds the error string verbatim. -/
theorem c6_history_append_per_turn_witness :
    process_query_loop
      (fun (_ : Unit) (_ : List Msg) => ((Except.ok "C" : Except String String), ()))
      (fun _ => some (Json.obj
        [("thought", Json.str "t"), ("action", Json.str "call_agent"),
         ("agent_name", Json.str "customer_data"), ("content", Json.str "Get customer 42")]))
      (fun (_ : Unit) (_ : String) (_ : Json) =>
        ((Except.error "unreachable" : Except String String), ()))
      "D" "S" 7 [] () () =
    process_query_loop
      (fun (_ : Unit) (_ : List Msg) => ((Except.ok "C" : Except String String), ()))
      (fun _ => some (Json.obj
        [("thought", Json.str "t"), ("action", Json.str "call_agent"),
         ("agent_name", Json.str "customer_data"), ("content", Json.str "Get customer 42")]))
      (fun (_ : Unit) (_ : String) (_ : Json) =>
        ((Except.error "unreachable" : Except String String), ()))
      "D" "S" 6
      ([] ++
        [{ role := "model", parts := [clean_text "C"] },
         { role := "user",
           parts := ["Result from " ++ pyStr (Json.str "customer_data") ++ ": " ++
             (call_agent
               (fun (_ : Unit) (_ : String) (_ : Json) =>
                 ((Except.error "unreachable" : Except String String), ()))
               "D" "S" (Json.str "customer_data") (Json.str "Get customer 42") ()).1] }])
      ()
      (call_agent
        (fun (_ : Unit) (_ : String) (_ : Json) =>
          ((Except.error "unreachable" : Except String String), ()))
        "D" "S" (Json.str "customer_data") (Json.str "Get customer 42") ()).2 :=
  c6_history_append_per_turn.1 Unit Unit _ _ _ "D" "S" 6 [] "C" () () ()
    (Json.obj
      [("thought", Json.str "t"), ("action", Json.str "call_agent"),
       ("agent_name", Json.str "customer_data"), ("content", Json.str "Get customer 42")])
    (Json.str "t") (Json.str "call_agent") (Json.str "customer_data")
    (Json.str "Get customer 42")
    rfl rfl rfl rfl rfl rfl rfl rfl

/-! ### Claim C7 -/

/-- C7: a turn on which the model call itself raises aborts the
invocation at once with the fixed result `"System Error"`: the model is
not retried (exactly the one failing call was issued), no further
planning turns run, no delegation call is made (the agent-call oracle
state is untouched, for every oracle), and the failure is not turned
into a corrective reprompt. -/
theorem c7_model_failure_fatal :
    ∀ (σ τ : Type)
      (gen : σ → List Msg → (Except String String) × σ)
      (parse : String → Option Json)
      (ct : τ → String → Json → (Except String String) × τ)
      (D S : String) (n : Nat) (messages : List Msg) (e : String) (s s' : σ) (t : τ),
      gen s messages = (Except.error e, s') →
      process_query_loop gen parse ct D S (n + 1) messages s t =
        (Except.ok (Json.str "System Error"), s', t) :=
  fun _ _ gen parse ct D S n messages e s s' t hg =>
    loop_gen_error_step gen parse ct D S n messages e s s' t hg

/-- C7 witness: a concrete failing model call, with the counting oracle
showing exactly one model call was issued. -/
theorem c7_model_failure_fatal_witness :
    process_query_loop (countGen fun _ _ => Except.error "rejected") (fun _ => none)
      (fun (_ : Unit) (_ : String) (_ : Json) => ((Except.ok "" : Except String String), ()))
      "D" "S" 15 [] 0 () = (Except.ok (Json.str "System Error"), 1, ()) :=
  c7_model_failure_fatal Nat Unit (countGen fun _ _ => Except.error "rejected")
    (fun _ => none) _ "D" "S" 14 [] "rejected" 0 1 () rfl

/-! ### Claim C10 -/

/-- C10 (counterexample): the claim that a turn whose parsed plan is a
JSON object with an unrecognized `action` leaves the history unchanged
while consuming budget is false on the code when the object lacks a
`thought` key: the plan object with the single entry "action" mapped
to "wait" makes the print of the thought entry raise a `KeyError` for
the key "thought", which escapes `process_query` instead of
the turn being skipped. -/
theorem c10_unknown_action_missing_thought_raises :
    (process_query
      (fun (_ : Unit) (_ : List Msg) => ((Except.ok "P10" : Except String String), ()))
      (fun str => if str == "P10" then some (Json.obj [("action", Json.str "wait")]) else none)
      (fun (_ : Unit) (_ : String) (_ : Json) => ((Except.ok "" : Except String String), ()))
      "D" "S" "q" () ()).1 = Except.error (PyExc.keyError "thought") := rfl

/-- C10 (amended): on every turn whose parsed plan carries a `thought`
field and an `action` equal to neither `"final_answer"` nor
`"call_agent"`, the loop consumes one unit of the budget while leaving
the history completely unchanged — no corrective reprompt, no
delegation call (the agent-call oracle state passes through untouched);
and an invocation seeing only such plans for all 15 turns returns the
exhaustion sentinel with 15 planning entries and the agent-call oracle
never consulted. -/
theorem c10_unknown_action_consumes_turn :
    (∀ (σ τ : Type)
       (gen : σ → List Msg → (Except String String) × σ)
       (parse : String → Option Json)
       (ct : τ → String → Json → (Except String String) × τ)
       (D S : String) (n : Nat) (messages : List Msg) (r : String) (s s' : σ) (t : τ)
       (plan th a : Json),
       gen s messages = (Except.ok r, s') →
       parse (clean_text r) = some plan →
       getItem plan "thought" = Except.ok th →
       getItem plan "action" = Except.ok a →
       jsonEqStr a "final_answer" = false →
       jsonEqStr a "call_agent" = false →
       process_query_loop gen parse ct D S (n + 1) messages s t =
         process_query_loop gen parse ct D S n messages s' t)
  ∧ (∀ (τ : Type) (parse : String → Option Json)
       (ct : τ → String → Json → (Except String String) × τ)
       (D S q : String) (t : τ) (r0 : String) (plan th a : Json),
       parse (clean_text r0) = some plan →
       getItem plan "thought" = Except.ok th →
       getItem plan "action" = Except.ok a →
       jsonEqStr a "final_answer" = false →
       jsonEqStr a "call_agent" = false →
       process_query (countGen fun _ _ => Except.ok r0) parse ct D S q 0 t =
         (Except.ok (Json.str "Error: Maximum turns reached without final answer."), 15, t)) := by
  constructor
  · intro σ τ gen parse ct D S n messages r s s' t plan th a hg hp hth hac hfa hca
    exact loop_other_action_step gen parse ct D S n messages r s s' t plan th a
      hg hp hth hac hfa hca
  · intro τ parse ct D S q t r0 plan th a hp hth hac hfa hca
    exact loop_all_other_action parse ct D S r0 plan th a hp hth hac hfa hca 15 _ 0 t

/-- C10 witness: a concrete run seeing only `\x7b"thought": "x",
"action": "wait"\x7d` plans exhausts the budget. -/
theorem c10_unknown_action_consumes_turn_witness :
    process_query (countGen fun _ _ => Except.ok "W")
      (fun _ => some (Json.obj [("thought", Json.str "x"), ("action", Json.str "wait")]))
      (fun (_ : Unit) (_ : String) (_ : Json) => ((Except.ok "" : Except String String), ()))
      "D" "S" "q" 0 () =
      (Except.ok (Json.str "Error: Maximum turns reached without final answer."), 15, ()) :=
  c10_unknown_action_consumes_turn.2 Unit _ _ "D" "S" "q" () "W"
    (Json.obj [("thought", Json.str "x"), ("action", Json.str "wait")])
    (Json.str "x") (Json.str "wait") rfl rfl rfl rfl rfl

/-! ### `create_task` helper lemmas -/

/-- A cache hit (entry present and not `None`) uses the cached descriptor:
no discovery request is issued (the fetch oracle state passes through
untouched, for every oracle) and the cache is unchanged. -/
theorem create_task_cache_hit {σ : Type}
    (fetch : σ → String → (Except String Json) × σ)
    (send : Json → String → Except String (List Response))
    (cache : List (String × Json)) (s : σ) (url msg : String) (v : Json)
    (hl : alistLookup cache url = some v) (hv : v ≠ Json.null) :
    create_task fetch send cache s url msg = (handleSend send v msg, cache, s) := by
  cases v with
  | null => exact absurd rfl hv
  | bool b => simp only [create_task, hl]
  | num n => simp only [create_task, hl]
  | str t => simp only [create_task, hl]
  | arr xs => simp only [create_task, hl]
  | obj fs => simp only [create_task, hl]

/-- A cache miss (entry absent, or present but `None`) with a successful
discovery fetch caches the fetched body before proceeding. -/
theorem create_task_fetch_ok {σ : Type}
    (fetch : σ → String → (Except String Json) × σ)
    (send : Json → String → Except String (List Response))
    (cache : List (String × Json)) (s : σ) (url msg : String) (d : Json) (s' : σ)
    (hl : alistLookup cache url = none ∨ alistLookup cache url = some Json.null)
    (hf : fetch s url = (Except.ok d, s')) :
    create_task fetch send cache s url msg = (handleSend send d msg, (url, d) :: cache, s') := by
  rcases hl with hl | hl
  · simp only [create_task, hl, hf]
  · simp only [create_task, hl, hf]

/-- A cache miss with a failing discovery fetch propagates the exception
and caches nothing. -/
theorem create_task_fetch_fail {σ : Type}
    (fetch : σ → String → (Except String Json) × σ)
    (send : Json → String → Except String (List Response))
    (cache : List (String × Json)) (s : σ) (url msg : String) (e : String) (s' : σ)
    (hl : alistLookup cache url = none ∨ alistLookup cache url = some Json.null)
    (hf : fetch s url = (Except.error e, s')) :
    create_task fetch send cache s url msg = (Except.error e, cache, s') := by
  rcases hl with hl | hl
  · simp only [create_task, hl, hf]
  · simp only [create_task, hl, hf]

/-! ### Claim C8 -/

/-- C8 (counterexample): the claim that the capability descriptor is
fetched over the network at most once per client lifetime is false on
the code when a discovery fetch succeeds with the body `null`: the body
is cached as `None`, the guard `… is not None` treats that entry as
absent, and the next `create_task` to the same endpoint fetches again —
two discovery fetches in one lifetime (the fetch oracle counts 2). -/
theorem c8_null_card_fetched_twice :
    (create_task
      (fun (k : Nat) (_ : String) => ((Except.ok Json.null : Except String Json), k + 1))
      (fun _ _ => (Except.error "TypeError" : Except String (List Response)))
      ((create_task
        (fun (k : Nat) (_ : String) => ((Except.ok Json.null : Except String Json), k + 1))
        (fun _ _ => (Except.error "TypeError" : Except String (List Response)))
        [] 0 "u" "m").2.1)
      ((create_task
        (fun (k : Nat) (_ : String) => ((Except.ok Json.null : Except String Json), k + 1))
        (fun _ _ => (Except.error "TypeError" : Except String (List Response)))
        [] 0 "u" "m").2.2)
      "u" "m").2.2 = 2 := rfl

/-- C8 (amended): the capability descriptor is fetched at most once per
client lifetime provided the fetched body is non-null: a cache hit on a
non-null entry issues no discovery request and leaves cache and fetch
state unchanged; a successful fetch caches the body, so a second
`create_task` to the same endpoint issues no discovery request; and
when the discovery fetch fails nothing is cached for that endpoint
(retry is possible on a later call).  A body decoding to `None` is the
one exception: it is cached but treated as absent, so it is refetched. -/
theorem c8_cache_discipline :
    (∀ (σ : Type) (fetch : σ → String → (Except String Json) × σ)
       (send : Json → String → Except String (List Response))
       (cache : List (String × Json)) (s : σ) (url msg : String) (v : Json),
       alistLookup cache url = some v → v ≠ Json.null →
       create_task fetch send cache s url msg = (handleSend send v msg, cache, s))
  ∧ (∀ (σ : Type) (fetch : σ → String → (Except String Json) × σ)
       (send : Json → String → Except String (List Response))
       (cache : List (String × Json)) (s : σ) (url msg : String) (d : Json) (s' : σ),
       alistLookup cache url = none →
       fetch s url = (Except.ok d, s') →
       create_task fetch send cache s url msg =
         (handleSend send d msg, (url, d) :: cache, s'))
  ∧ (∀ (σ σ₂ : Type) (fetch : σ → String → (Except String Json) × σ)
       (send : Json → String → Except String (List Response))
       (cache : List (String × Json)) (s : σ) (url msg : String) (d : Json) (s' : σ)
       (fetch₂ : σ₂ → String → (Except String Json) × σ₂)
       (send₂ : Json → String → Except String (List Response)) (s₂ : σ₂) (msg₂ : String),
       alistLookup cache url = none →
       fetch s url = (Except.ok d, s') →
       d ≠ Json.null →
       create_task fetch₂ send₂ ((create_task fetch send cache s url msg).2.1) s₂ url msg₂ =
         (handleSend send₂ d msg₂, (url, d) :: cache, s₂))
  ∧ (∀ (σ : Type) (fetch : σ → String → (Except String Json) × σ)
       (send : Json → String → Except String (List Response))
       (cache : List (String × Json)) (s : σ) (url msg : String) (e : String) (s' : σ),
       (alistLookup cache url = none ∨ alistLookup cache url = some Json.null) →
       fetch s url = (Except.error e, s') →
       create_task fetch send cache s url msg = (Except.error e, cache, s')) := by
  refine ⟨?_, ?_, ?_, ?_⟩
  · intro σ fetch send cache s url msg v hl hv
    exact create_task_cache_hit fetch send cache s url msg v hl hv
  · intro σ fetch send cache s url msg d s' hl hf
    exact create_task_fetch_ok fetch send cache s url msg d s' (Or.inl hl) hf
  · intro σ σ₂ fetch send cache s url msg d s' fetch₂ send₂ s₂ msg₂ hl hf hd
    rw [create_task_fetch_ok fetch send cache s url msg d s' (Or.inl hl) hf]
    exact create_task_cache_hit fetch₂ send₂ ((url, d) :: cache) s₂ url msg₂ d
      (by simp [alistLookup]) hd
  · intro σ fetch send cache s url msg e s' hl hf
    exact create_task_fetch_fail fetch send cache s url msg e s' hl hf

/-- C8 witness: a second call to a freshly populated endpoint hits the
cache. -/
theorem c8_cache_discipline_witness :
    create_task
      (fun (k : Nat) (_ : String) => ((Except.ok (Json.obj []) : Except String Json), k + 1))
      (fun _ _ => (Except.ok [] : Except String (List Response)))
      ((create_task
        (fun (k : Nat) (_ : String) => ((Except.ok (Json.obj []) : Except String Json), k + 1))
        (fun _ _ => (Except.ok [] : Except String (List Response)))
        [] 0 "u" "m").2.1)
      5 "u" "m2" =
      (handleSend (fun _ _ => (Except.ok [] : Except String (List Response)))
        (Json.obj []) "m2", [("u", Json.obj [])], 5) :=
  c8_cache_discipline.2.2.1 Nat Nat
    (fun (k : Nat) (_ : String) => ((Except.ok (Json.obj []) : Except String Json), k + 1))
    (fun _ _ => (Except.ok [] : Except String (List Response)))
    [] 0 "u" "m" (Json.obj []) 1
    (fun (k : Nat) (_ : String) => ((Except.ok (Json.obj []) : Except String Json), k + 1))
    (fun _ _ => (Except.ok [] : Except String (List Response)))
    5 "m2" rfl rfl (fun h => Json.noConfusion h)

/-! ### Claim C9 -/

/-- C9 (counterexample): the claim that every completed response whose
shape deviates — "including artifacts being absent entirely" — yields a
best-effort string rendering instead of raising is false on the code:
when `task.artifacts` is `None`, `task.artifacts[0]` raises `TypeError`,
which `except (AttributeError, IndexError)` does not catch, so
`create_task` raises. -/
theorem c9_none_artifacts_raises :
    create_task
      (fun (k : Nat) (_ : String) => ((Except.ok (Json.obj []) : Except String Json), k))
      (fun _ _ => (Except.ok [Response.tup [{ artifacts := none, reprStr := "TASK" }]] :
        Except String (List Response)))
      [("u", Json.obj [])] 0 "u" "m" =
      (Except.error "TypeError", [("u", Json.obj [])], 0) := rfl

/-- C9 (amended): shape deviations that surface as a caught
`IndexError` or `AttributeError` — an empty artifact list, a first
artifact with no parts, or a first part whose root carries no text —
make `create_task` return the best-effort rendering `str(task)`, and
when no usable response unit is received (no responses, a non-tuple
first response, or an empty tuple) it returns the fixed string
`"No response received"`; but a task whose `artifacts` field is `None`
raises `TypeError` out of `create_task` (see the counterexample). -/
theorem c9_shape_fallback :
    (∀ (σ : Type) (fetch : σ → String → (Except String Json) × σ)
       (send : Json → String → Except String (List Response))
       (cache : List (String × Json)) (s : σ) (url msg : String) (v : Json)
       (task : A2ATask) (r2 : List A2ATask) (rest : List Response) (arts : List Artifact),
       alistLookup cache url = some v → v ≠ Json.null →
       send v msg = Except.ok (Response.tup (task :: r2) :: rest) →
       task.artifacts = some arts →
       (arts = [] ∨
        (∃ a ar, arts = a :: ar ∧ a.parts = []) ∨
        (∃ a ar pr, arts = a :: ar ∧ a.parts = PartRoot.otherPart :: pr)) →
       (create_task fetch send cache s url msg).1 = Except.ok task.reprStr)
  ∧ (∀ (σ : Type) (fetch : σ → String → (Except String Json) × σ)
       (send : Json → String → Except String (List Response))
       (cache : List (String × Json)) (s : σ) (url msg : String) (v : Json)
       (rs : List Response),
       alistLookup cache url = some v → v ≠ Json.null →
       send v msg = Except.ok rs →
       (rs = [] ∨ (∃ rest, rs = Response.nonTuple :: rest) ∨
        (∃ rest, rs = Response.tup [] :: rest)) →
       (create_task fetch send cache s url msg).1 = Except.ok "No response received") := by
  constructor
  · intro σ fetch send cache s url msg v task r2 rest arts hl hv hsend hart hdev
    rw [create_task_cache_hit fetch send cache s url msg v hl hv]
    show handleSend send v msg = Except.ok task.reprStr
    simp only [handleSend, hsend]
    rcases hdev with hdev | ⟨a, ar, harts, hparts⟩ | ⟨a, ar, pr, harts, hparts⟩
    · subst hdev
      simp only [extract_text, hart]
    · subst harts
      simp only [extract_text, hart, hparts]
    · subst harts
      simp only [extract_text, hart, hparts]
  · intro σ fetch send cache s url msg v rs hl hv hsend hshape
    rw [create_task_cache_hit fetch send cache s url msg v hl hv]
    show handleSend send v msg = Except.ok "No response received"
    rcases hshape with hshape | ⟨rest, hshape⟩ | ⟨rest, hshape⟩ <;> subst hshape <;>
      simp only [handleSend, hsend]

/-- C9 witness: a task with an empty artifact list falls back to
`str(task)`. -/
theorem c9_shape_fallback_witness :
    (create_task
      (fun (k : Nat) (_ : String) => ((Except.ok (Json.obj []) : Except String Json), k))
      (fun _ _ => (Except.ok [Response.tup [{ artifacts := some [], reprStr := "R" }]] :
        Except String (List Response)))
      [("u", Json.obj [])] 0 "u" "m").1 = Except.ok "R" :=
  c9_shape_fallback.1 Nat
    (fun (k : Nat) (_ : String) => ((Except.ok (Json.obj []) : Except String Json), k))
    (fun _ _ => (Except.ok [Response.tup [{ artifacts := some [], reprStr := "R" }]] :
      Except String (List Response)))
    [("u", Json.obj [])] 0 "u" "m" (Json.obj [])
    { artifacts := some [], reprStr := "R" } [] [] []
    rfl (fun h => Json.noConfusion h) rfl rfl (Or.inl rfl)
